import Mathlib

/-!
Verification of the feature-engineering and prediction pipeline of
`src/ml/train_sdg_predictor.py` against its natural-language specification.

The pipeline is shallowly embedded: each pandas/sklearn operation used by the
source is translated into an explicit Lean function over lists of rows.
Machine floats are modelled by `ℚ` (exact arithmetic), except the sample
standard deviation, whose square root lives in `ℝ`; nullable dataframe cells
(NaN) are modelled by `Option`.
-/

namespace SDG

/-- One row of the dataframe returned by `load_training_data` (the BigQuery
left join, lines 31-52): a raw progress observation for one country, goal and
year.  The query guarantees `year` and (at source) `avg_indicator_value` are
non-null; every column that can be NULL after the LEFT JOIN, or NaN in the
dataframe, is an `Option`. -/
structure Observation where
  country_code : Option String
  country_name : Option String
  goal_code : Option String
  year : ℤ
  region : Option String
  income_level : Option String
  indicators_measured : Option ℚ
  avg_indicator_value : Option ℚ
  yoy_change : Option ℚ
  gdp_per_capita : Option ℚ
  population : Option ℚ
  life_expectancy : Option ℚ
  adult_literacy_rate : Option ℚ
deriving DecidableEq, Repr

/-- Mean of a list of rationals, `none` on the empty list: pandas `mean`
over the non-null cells of a column (NaN when no cell is non-null). -/
def meanQ (l : List ℚ) : Option ℚ :=
  if l.length = 0 then none else some (l.sum / l.length)

/-- Sample variance with `ddof = 1` (the pandas default for `std`),
only meaningful for lists of length ≥ 2. -/
def sampleVarQ (l : List ℚ) : ℚ :=
  (l.map (fun x => (x - l.sum / l.length) ^ 2)).sum / ((l.length : ℚ) - 1)

/-- pandas `std` over the non-null cells: NaN (here `none`) when fewer than
two values are present, otherwise the square root of the `ddof = 1` sample
variance.  The square root forces `ℝ`. -/
noncomputable def sampleStd (l : List ℚ) : Option ℝ :=
  if l.length < 2 then none else some (Real.sqrt ((sampleVarQ l : ℚ) : ℝ))

/-- pandas `min` over the non-null cells of a column. -/
def minQ : List ℚ → Option ℚ
  | [] => none
  | x :: xs => match minQ xs with
    | none => some x
    | some m => some (min x m)

/-- pandas `max` over the non-null cells of a column. -/
def maxQ : List ℚ → Option ℚ
  | [] => none
  | x :: xs => match maxQ xs with
    | none => some x
    | some m => some (max x m)

/-- pandas `max` over a column of (non-null) integers. -/
def maxZ : List ℤ → Option ℤ
  | [] => none
  | x :: xs => match maxZ xs with
    | none => some x
    | some m => some (max x m)

/-- pandas groupby `last` on one column: the last non-null entry, in the
order the rows currently have (`skipna` defaults to true). -/
def lastSome {α : Type} (l : List (Option α)) : Option α :=
  (l.filterMap id).getLast?

/-- The groupby key of line 71: `['country_code', 'goal_code']`.  pandas
drops a row from the grouping when any component of its key is null
(`dropna=True` is the default), which `Option.none` here mirrors. -/
def obsKey (o : Observation) : Option (String × String) :=
  match o.country_code, o.goal_code with
  | some c, some g => some (c, g)
  | _, _ => none

/-- The distinct (country_code, goal_code) keys present in the batch, each
once.  (pandas emits the groups in sorted key order; none of the properties
below depend on the order of the output records, only on which records
exist, so first-occurrence order is used.) -/
def presentKeys (df : List Observation) : List (String × String) :=
  (df.filterMap obsKey).dedup

/-- The rows of one (country_code, goal_code) group, in year order
(line 68 sorts the dataframe by `['country_code', 'goal_code', 'year']`
before grouping; within one group that is year order). -/
def groupRows (df : List Observation) (c g : String) : List Observation :=
  List.insertionSort (fun a b => a.year ≤ b.year)
    (df.filter (fun o => decide (obsKey o = some (c, g))))

/-- One row of `progress_features` (lines 71-85): the aggregates of one
(country_code, goal_code) group, with the flattened column names of
lines 79-85. -/
structure FeatureRecord where
  country_code : String
  goal_code : String
  value_mean : Option ℚ
  value_std : Option ℝ
  value_min : Option ℚ
  value_max : Option ℚ
  value_latest : Option ℚ
  avg_yoy_change : Option ℚ
  total_change : ℚ
  data_points : ℕ
  latest_year : Option ℤ
  avg_indicators_measured : Option ℚ

/-- The `agg` dictionary of lines 71-76 applied to one group's rows:
mean/std/min/max/last of `avg_indicator_value`, mean/sum of `yoy_change`
(pandas `sum` of an all-null column is 0, not NaN), count/max of `year`
(`year` is non-null, so `count` is the number of rows), mean of
`indicators_measured`.  All statistics skip null cells. -/
noncomputable def aggGroup (rows : List Observation) (c g : String) : FeatureRecord :=
  let vals := rows.filterMap (·.avg_indicator_value)
  let changes := rows.filterMap (·.yoy_change)
  { country_code := c
    goal_code := g
    value_mean := meanQ vals
    value_std := sampleStd vals
    value_min := minQ vals
    value_max := maxQ vals
    value_latest := lastSome (rows.map (·.avg_indicator_value))
    avg_yoy_change := meanQ changes
    total_change := changes.sum
    data_points := rows.length
    latest_year := maxZ (rows.map (·.year))
    avg_indicators_measured := meanQ (rows.filterMap (·.indicators_measured)) }

/-- `progress_features` (lines 71-85): one aggregated FeatureRecord per
distinct (country_code, goal_code) key present in the batch. -/
noncomputable def progress_features (df : List Observation) : List FeatureRecord :=
  (presentKeys df).map (fun k => aggGroup (groupRows df k.1 k.2) k.1 k.2)

/-- Nothing in `engineer_features` validates the input or raises: the
function always returns its aggregate normally, so its error behaviour,
embedded as an `Except`, is constantly `.ok`.  (`DataIntegrityError` is the
error kind the specification assigns to a null key or value; no such class
or raise statement exists anywhere in the source.) -/
structure DataIntegrityError where
  msg : String
deriving DecidableEq, Repr

/-- The aggregation stage of `engineer_features` with its fallibility made
explicit: the source contains no validation and no raise, so the result is
always `.ok` of the aggregate. -/
noncomputable def aggregateE (df : List Observation) :
    Except DataIntegrityError (List FeatureRecord) :=
  .ok (progress_features df)

/-- The row of `latest_attrs` for one country (lines 88-91): the columns
selected there. -/
structure EntityAttrs where
  country_name : Option String
  region : Option String
  income_level : Option String
  gdp_per_capita : Option ℚ
  population : Option ℚ
  life_expectancy : Option ℚ
  adult_literacy_rate : Option ℚ
deriving DecidableEq, Repr

/-- The rows of one country after line 88's `df.sort_values('year')`,
restricted to that country by `groupby('country_code')`: the country's
observations in year order.  (Rows whose `country_code` is null are dropped
by the grouping.) -/
def entityRows (df : List Observation) (c : String) : List Observation :=
  List.insertionSort (fun a b => a.year ≤ b.year)
    (df.filter (fun o => decide (o.country_code = some c)))

/-- `latest_attrs` for one country (lines 88-91):
`df.sort_values('year').groupby('country_code').last()` on the selected
columns.  pandas `GroupBy.last` takes, for each column independently, the
last non-null entry of the group (`skipna` defaults to true) — it does not
take one whole row. -/
def latest_attrs (df : List Observation) (c : String) : EntityAttrs :=
  let rows := entityRows df c
  { country_name := lastSome (rows.map (·.country_name))
    region := lastSome (rows.map (·.region))
    income_level := lastSome (rows.map (·.income_level))
    gdp_per_capita := lastSome (rows.map (·.gdp_per_capita))
    population := lastSome (rows.map (·.population))
    life_expectancy := lastSome (rows.map (·.life_expectancy))
    adult_literacy_rate := lastSome (rows.map (·.adult_literacy_rate)) }

/-- Line 94: `progress_features.merge(latest_attrs, on='country_code',
how='left')` — every FeatureRecord is paired with the contextual-attribute
row of its country. -/
noncomputable def mergedFeatures (df : List Observation) :
    List (FeatureRecord × EntityAttrs) :=
  (progress_features df).map (fun r => (r, latest_attrs df r.country_code))

/-- Line 97: `features['value_std'].fillna(0)` — the filled standard
deviation of one record. -/
noncomputable def filledStd (r : FeatureRecord) : ℝ :=
  r.value_std.getD 0

/-- Line 98: `features['avg_yoy_change'].fillna(0)` — the filled mean
year-over-year change of one record. -/
def filledChange (r : FeatureRecord) : ℚ :=
  r.avg_yoy_change.getD 0

/-- pandas `Series.median`: sort the values; odd count takes the middle
value, even count the mean of the two middle values.  (Only applied to
columns without NaN; the source applies it after its `fillna` lines.) -/
def medianQ (l : List ℚ) : ℚ :=
  if l.length % 2 = 1 then
    (List.insertionSort (fun a b : ℚ => a ≤ b) l).getD (l.length / 2) 0
  else
    ((List.insertionSort (fun a b : ℚ => a ≤ b) l).getD (l.length / 2 - 1) 0
      + (List.insertionSort (fun a b : ℚ => a ≤ b) l).getD (l.length / 2) 0) / 2

/-- Lines 107-108: the derived label column.  `on_track_2030` is 1 exactly
when the record's (filled) `avg_yoy_change` strictly exceeds the batch
median of that column, else 0. -/
def onTrackLabels (changes : List ℚ) : List ℕ :=
  changes.map (fun c => if medianQ changes < c then 1 else 0)

/-- Lines 114-115: `fillna('Unknown')` on a categorical cell. -/
def fillUnknown (v : Option String) : String :=
  v.getD "Unknown"

/-- sklearn `LabelEncoder.fit`: the classes are the distinct values of the
column in sorted order (`numpy.unique`). -/
def encoderClasses (col : List String) : List String :=
  List.insertionSort (fun a b : String => a ≤ b) col.dedup

/-- sklearn `LabelEncoder.transform` of one value: its index in the sorted
distinct classes (the value → code mapping). -/
def encoderCode (col : List String) (v : String) : ℕ :=
  (encoderClasses col).indexOf v

/-- `TrainingError` is the error kind the specification assigns to a
degenerate label distribution; no such class or raise statement exists
anywhere in the source. -/
structure TrainingError where
  msg : String
deriving DecidableEq, Repr

/-- The error behaviour of `train_model` (lines 123-171), embedded as an
`Except`: the body selects the feature columns, zero-fills them, splits
80/20 with a fixed seed and fits a `RandomForestClassifier`.  It contains no
check on the label distribution and no raise statement, and
`RandomForestClassifier.fit` accepts a single-class target, so the embedded
function always returns `.ok`; the returned value records the distinct
label classes seen, the datum the claim under test is about. -/
def train_model (y : List ℕ) : Except TrainingError (List ℕ) :=
  .ok y.dedup

/-- Line 184: `prediction_2030_on_track = (predictions >= 0.5).astype(int)`. -/
def on_track_2030 (p : ℚ) : ℕ :=
  if 1 / 2 ≤ p then 1 else 0

/-- Lines 187-191: `pd.cut(predictions, bins=[0, 0.3, 0.5, 0.7, 1.0],
labels=[...])`.  `pd.cut` defaults to `right=True` and
`include_lowest=False`, so the bins are the half-open intervals
(0, 0.3], (0.3, 0.5], (0.5, 0.7], (0.7, 1.0]; a value outside every bin
(in particular exactly 0) gets NaN, here `none`. -/
def prediction_category (p : ℚ) : Option String :=
  if 0 < p ∧ p ≤ 3 / 10 then some "Off Track"
  else if 3 / 10 < p ∧ p ≤ 1 / 2 then some "At Risk"
  else if 1 / 2 < p ∧ p ≤ 7 / 10 then some "Moderate Progress"
  else if 7 / 10 < p ∧ p ≤ 1 then some "On Track"
  else none

/-- A baseline observation used to build the concrete inputs of the
theorems below: every nullable column null, year 2000. -/
def baseObs : Observation :=
  { country_code := none
    country_name := none
    goal_code := none
    year := 2000
    region := none
    income_level := none
    indicators_measured := none
    avg_indicator_value := none
    yoy_change := none
    gdp_per_capita := none
    population := none
    life_expectancy := none
    adult_literacy_rate := none }

/-- Concrete input for the C4 counterexample: a lone observation whose
`yoy_change` is non-null. -/
def c4Obs : Observation :=
  { baseObs with
    country_code := some "AAA"
    goal_code := some "G1"
    avg_indicator_value := some 10
    yoy_change := some 1 }

/-- Concrete input for the C4 witness: a lone observation whose
`yoy_change` is null. -/
def c4wObs : Observation :=
  { baseObs with
    country_code := some "BBB"
    goal_code := some "G2"
    avg_indicator_value := some 7 }

/-- Concrete input for the C5 counterexample: the country observed in 2000
with contextual attributes present. -/
def c5Obs1 : Observation :=
  { baseObs with
    country_code := some "DDD"
    year := 2000
    region := some "Africa"
    gdp_per_capita := some 100 }

/-- Concrete input for the C5 counterexample: the same country observed in
2001 with its contextual attributes null. -/
def c5Obs2 : Observation :=
  { baseObs with
    country_code := some "DDD"
    year := 2001 }

/-- Concrete input for the C5 witness: an earlier observation with null
attributes. -/
def c5wObs1 : Observation :=
  { baseObs with
    country_code := some "EEE"
    year := 2000 }

/-- Concrete input for the C5 witness: the latest observation, with every
contextual attribute present. -/
def c5wObs2 : Observation :=
  { baseObs with
    country_code := some "EEE"
    country_name := some "Eeland"
    year := 2001
    region := some "Oceania"
    income_level := some "High"
    gdp_per_capita := some 200
    population := some 1000
    life_expectancy := some 80
    adult_literacy_rate := some 99 }

/-- The year comparison used by the sorts is total. -/
instance : IsTotal Observation (fun a b => a.year ≤ b.year) :=
  ⟨fun a b => le_total a.year b.year⟩

/-- The year comparison used by the sorts is transitive. -/
instance : IsTrans Observation (fun a b => a.year ≤ b.year) :=
  ⟨fun _ _ _ hab hbc => le_trans hab hbc⟩

/-- The year comparison used by the sorts is reflexive. -/
instance : IsRefl Observation (fun a b => a.year ≤ b.year) :=
  ⟨fun a => le_refl a.year⟩

end SDG

/-! ## Claims -/

/-- C1, counterexample: probability 0.5 yields `on_track_2030 = 1` but
category "At Risk", not "Moderate Progress" as claimed — `pd.cut` with
its default `right=True` puts 0.5 into the bin (0.3, 0.5]. -/
theorem c1_half_category_counterexample :
    SDG.on_track_2030 (1 / 2) = 1
    ∧ SDG.prediction_category (1 / 2) = some "At Risk"
    ∧ SDG.prediction_category (1 / 2) ≠ some "Moderate Progress" := by
  unfold SDG.on_track_2030 SDG.prediction_category
  norm_num
  decide

/-- C1, amended: `on_track_2030` and `category` are each derived from the
probability alone; `on_track_2030 = 1` iff `p ≥ 0.5`; probability 0.5
yields `on_track_2030 = 1` with category "At Risk" (not "Moderate
Progress"); probability 0.49999 yields `on_track_2030 = 0` with category
"At Risk". -/
theorem c1_prediction_fields_amended :
    (∀ p : ℚ, SDG.on_track_2030 p = 1 ↔ 1 / 2 ≤ p)
    ∧ SDG.on_track_2030 (1 / 2) = 1
    ∧ SDG.prediction_category (1 / 2) = some "At Risk"
    ∧ SDG.on_track_2030 (49999 / 100000) = 0
    ∧ SDG.prediction_category (49999 / 100000) = some "At Risk" := by
  refine ⟨fun p => ?_, ?_, ?_, ?_, ?_⟩
  · unfold SDG.on_track_2030
    split_ifs with h
    · exact iff_of_true rfl h
    · exact iff_of_false (by simp) h
  · unfold SDG.on_track_2030; norm_num
  · unfold SDG.prediction_category; norm_num
  · unfold SDG.on_track_2030; norm_num
  · unfold SDG.prediction_category; norm_num

/-- C2, counterexample: the claimed partition of [0,1] fails at 0
(`pd.cut` with `include_lowest=False` leaves exactly 0 uncategorised), and
each boundary value falls in the lower of its two adjacent intervals, not
the upper one. -/
theorem c2_boundary_counterexample :
    SDG.prediction_category 0 = none
    ∧ SDG.prediction_category (3 / 10) = some "Off Track"
    ∧ SDG.prediction_category (3 / 10) ≠ some "At Risk"
    ∧ SDG.prediction_category (1 / 2) ≠ some "Moderate Progress"
    ∧ SDG.prediction_category (7 / 10) ≠ some "On Track" := by
  unfold SDG.prediction_category
  norm_num
  decide

/-- C2, amended: the probability-to-category mapping assigns exactly one of
the four categories to every probability in the half-open interval (0, 1]
(probability exactly 0 gets none), and each boundary value 0.3, 0.5, 0.7
falls in the lower of its two adjacent intervals (the bins are
right-closed). -/
theorem c2_partition_amended (p : ℚ) (h0 : 0 < p) (h1 : p ≤ 1) :
    (SDG.prediction_category p).isSome = true
    ∧ SDG.prediction_category (3 / 10) = some "Off Track"
    ∧ SDG.prediction_category (1 / 2) = some "At Risk"
    ∧ SDG.prediction_category (7 / 10) = some "Moderate Progress" := by
  refine ⟨?_, by unfold SDG.prediction_category; norm_num,
    by unfold SDG.prediction_category; norm_num,
    by unfold SDG.prediction_category; norm_num⟩
  unfold SDG.prediction_category
  split_ifs with hA hB hC hD
  · rfl
  · rfl
  · rfl
  · rfl
  · exfalso
    rcases le_or_lt p (3 / 10) with h | h
    · exact hA ⟨h0, h⟩
    rcases le_or_lt p (1 / 2) with h2 | h2
    · exact hB ⟨h, h2⟩
    rcases le_or_lt p (7 / 10) with h3 | h3
    · exact hC ⟨h2, h3⟩
    · exact hD ⟨h3, h1⟩

/-- C2 witness: the amended partition theorem applied at probability 1/3. -/
theorem c2_partition_witness :
    (0 : ℚ) < 1 / 3 ∧ (1 / 3 : ℚ) ≤ 1
    ∧ (SDG.prediction_category (1 / 3)).isSome = true :=
  ⟨by norm_num, by norm_num, (c2_partition_amended (1 / 3) (by norm_num) (by norm_num)).1⟩

/-- Helper: a `getD` lookup at an index inside the list is an element of
the list. -/
theorem getD_mem_of_lt {l : List ℚ} {i : ℕ} (h : i < l.length) (d : ℚ) :
    l.getD i d ∈ l := by
  rw [List.getD_eq_getElem?_getD, List.getElem?_eq_getElem h]
  exact List.getElem_mem h

/-- Helper: the pandas median of a non-empty list all of whose values are a
single constant is that constant. -/
theorem medianQ_of_all_eq {l : List ℚ} {a : ℚ} (hne : l ≠ [])
    (hall : ∀ c ∈ l, c = a) : SDG.medianQ l = a := by
  have hperm := List.perm_insertionSort (fun x y : ℚ => x ≤ y) l
  have hlen : (List.insertionSort (fun x y : ℚ => x ≤ y) l).length = l.length :=
    hperm.length_eq
  have hmem : ∀ c ∈ List.insertionSort (fun x y : ℚ => x ≤ y) l, c = a :=
    fun c hc => hall c (hperm.mem_iff.mp hc)
  have hn : 0 < l.length := List.length_pos.mpr hne
  unfold SDG.medianQ
  by_cases hpar : l.length % 2 = 1
  · rw [if_pos hpar]
    exact hmem _ (getD_mem_of_lt (by omega) 0)
  · rw [if_neg hpar]
    have e1 := hmem _ (getD_mem_of_lt (l := List.insertionSort (fun x y : ℚ => x ≤ y) l)
      (i := l.length / 2 - 1) (by omega) 0)
    have e2 := hmem _ (getD_mem_of_lt (l := List.insertionSort (fun x y : ℚ => x ≤ y) l)
      (i := l.length / 2) (by omega) 0)
    rw [e1, e2]
    ring

/-- Helper: in a list sorted by `≤`, the entry at a smaller index is at
most the entry at a larger index. -/
theorem sorted_le_of_index_le {s : List ℚ}
    (hsort : List.Sorted (fun a b : ℚ => a ≤ b) s)
    {i j : ℕ} (hi : i < s.length) (hj : j < s.length) (hij : i ≤ j) :
    s[i] ≤ s[j] := by
  have := hsort.rel_get_of_le (a := ⟨i, hi⟩) (b := ⟨j, hj⟩) hij
  simpa using this

/-- Helper: at most `⌊n/2⌋` entries of a non-empty list strictly exceed
its pandas median. -/
theorem countP_gt_median_le (l : List ℚ) (hne : l ≠ []) :
    List.countP (fun c => decide (SDG.medianQ l < c)) l ≤ l.length / 2 := by
  have hperm := List.perm_insertionSort (fun a b : ℚ => a ≤ b) l
  have hsort := List.sorted_insertionSort (fun a b : ℚ => a ≤ b) l
  set s := List.insertionSort (fun a b : ℚ => a ≤ b) l with hs
  have hlen : s.length = l.length := hperm.length_eq
  have hn : 0 < l.length := List.length_pos.mpr hne
  set n := l.length with hnn
  set k := n - n / 2 with hk
  have hbelow : ∀ (i : ℕ) (h : i < s.length), i < k → s[i] ≤ SDG.medianQ l := by
    intro i h hik
    by_cases hpar : n % 2 = 1
    · have hmid : n / 2 < s.length := by omega
      have hmval : SDG.medianQ l = s[n / 2] := by
        unfold SDG.medianQ
        rw [← hnn, if_pos hpar, ← hs, List.getD_eq_getElem?_getD,
          List.getElem?_eq_getElem hmid]
        rfl
      rw [hmval]
      exact sorted_le_of_index_le hsort h hmid (by omega)
    · have hm1 : n / 2 - 1 < s.length := by omega
      have hmid : n / 2 < s.length := by omega
      have hmval : SDG.medianQ l = (s[n / 2 - 1] + s[n / 2]) / 2 := by
        unfold SDG.medianQ
        rw [← hnn, if_neg hpar, ← hs, List.getD_eq_getElem?_getD,
          List.getD_eq_getElem?_getD, List.getElem?_eq_getElem hm1,
          List.getElem?_eq_getElem hmid]
        rfl
      have hlow : s[i] ≤ s[n / 2 - 1] :=
        sorted_le_of_index_le hsort h hm1 (by omega)
      have hmono : s[n / 2 - 1] ≤ s[n / 2] :=
        sorted_le_of_index_le hsort hm1 hmid (by omega)
      rw [hmval]
      linarith
  calc List.countP (fun c => decide (SDG.medianQ l < c)) l
      = List.countP (fun c => decide (SDG.medianQ l < c)) s :=
        (hperm.countP_eq _).symm
    _ = List.countP (fun c => decide (SDG.medianQ l < c)) (s.take k)
        + List.countP (fun c => decide (SDG.medianQ l < c)) (s.drop k) := by
        conv_lhs => rw [← List.take_append_drop k s]
        rw [List.countP_append]
    _ = 0 + List.countP (fun c => decide (SDG.medianQ l < c)) (s.drop k) := by
        congr 1
        rw [List.countP_eq_zero]
        intro x hx
        rcases List.mem_iff_getElem.mp hx with ⟨i, hi, rfl⟩
        have hik : i < k := by
          have := hi
          rw [List.length_take] at this
          omega
        have hilen : i < s.length := by
          have := hi
          rw [List.length_take] at this
          omega
        simp only [List.getElem_take, decide_eq_true_eq]
        exact not_lt.mpr (hbelow i hilen hik)
    _ ≤ 0 + (s.drop k).length :=
        Nat.add_le_add_left (List.countP_le_length _) 0
    _ = n - k := by
        rw [List.length_drop, hlen]
        omega
    _ = n / 2 := by omega

/-- C3: the derived label is 1 exactly for the records whose mean change
strictly exceeds the batch median, 0 otherwise; in particular on a batch
whose mean-change values are all equal (hence all equal to the median)
every record gets label 0. -/
theorem c3_label_strict_median (changes : List ℚ) :
    SDG.onTrackLabels changes
      = changes.map (fun c => if SDG.medianQ changes < c then 1 else 0)
    ∧ ∀ a : ℚ, changes ≠ [] → (∀ c ∈ changes, c = a) →
        SDG.medianQ changes = a
        ∧ ∀ lab ∈ SDG.onTrackLabels changes, lab = 0 := by
  refine ⟨rfl, fun a hne hall => ?_⟩
  have hmed := medianQ_of_all_eq hne hall
  refine ⟨hmed, fun lab hlab => ?_⟩
  unfold SDG.onTrackLabels at hlab
  rcases List.mem_map.mp hlab with ⟨c, hc, rfl⟩
  rw [hmed, hall c hc, if_neg (lt_irrefl a)]

/-- C3 witness: the label rule applied to the concrete all-tied batch
[2, 2, 2]: the median is 2 and every label is 0. -/
theorem c3_label_strict_median_witness :
    (([2, 2, 2] : List ℚ) ≠ [] ∧ ∀ c ∈ ([2, 2, 2] : List ℚ), c = 2)
    ∧ SDG.medianQ [2, 2, 2] = 2
    ∧ ∀ lab ∈ SDG.onTrackLabels [2, 2, 2], lab = 0 :=
  ⟨⟨by simp, fun c hc => by simpa using hc⟩,
   ((c3_label_strict_median [2, 2, 2]).2 2 (by simp)
      (fun c hc => by simpa using hc)).1,
   ((c3_label_strict_median [2, 2, 2]).2 2 (by simp)
      (fun c hc => by simpa using hc)).2⟩

/-- C10: the positive class can never be a strict majority — at most
⌊n/2⌋ of the n records receive label 1, because the label demands strictly
exceeding the batch median. -/
theorem c10_positives_never_majority (changes : List ℚ) :
    (SDG.onTrackLabels changes).count 1 ≤ changes.length / 2 := by
  rcases eq_or_ne changes [] with rfl | hne
  · simp [SDG.onTrackLabels]
  unfold SDG.onTrackLabels
  rw [List.count_eq_countP, List.countP_map]
  have hcount :
      List.countP
        ((fun x => x == 1) ∘ fun c => if SDG.medianQ changes < c then 1 else 0)
        changes
      = List.countP (fun c => decide (SDG.medianQ changes < c)) changes := by
    apply List.countP_congr
    intro c _
    by_cases h : SDG.medianQ changes < c <;> simp [h]
  rw [hcount]
  exact countP_gt_median_le changes hne


/-- C4, counterexample: a single-observation group whose one observation
carries a non-null `yoy_change` of 1 yields `avg_yoy_change` (the spec's
`mean_change`) 1 after the fill, not 0 — the mean of one non-null change is
that change, and `fillna(0)` only replaces NaN. -/
theorem c4_singleton_change_counterexample :
    SDG.filledStd (SDG.aggGroup (SDG.groupRows [SDG.c4Obs] "AAA" "G1")
      "AAA" "G1") = 0
    ∧ SDG.filledChange (SDG.aggGroup (SDG.groupRows [SDG.c4Obs] "AAA" "G1")
      "AAA" "G1") = 1
    ∧ (1 : ℚ) ≠ 0 := by
  refine ⟨?_, ?_, by norm_num⟩ <;>
    simp [SDG.groupRows, SDG.obsKey, SDG.baseObs, SDG.c4Obs, SDG.aggGroup,
      SDG.filledStd, SDG.filledChange, SDG.sampleStd, SDG.meanQ,
      List.insertionSort, List.orderedInsert]

/-- C4, amended: a single-observation group always yields a filled
`value_std` of 0 (the sample deviation of one value is NaN, replaced by
`fillna(0)`), and its filled `avg_yoy_change` equals that observation's
`yoy_change` when the latter is non-null, and 0 when it is null — never NaN
or undefined. -/
theorem c4_singleton_group_amended (df : List SDG.Observation) (c g : String)
    (o : SDG.Observation)
    (h : df.filter (fun x => decide (SDG.obsKey x = some (c, g))) = [o]) :
    SDG.filledStd (SDG.aggGroup (SDG.groupRows df c g) c g) = 0
    ∧ SDG.filledChange (SDG.aggGroup (SDG.groupRows df c g) c g)
        = o.yoy_change.getD 0 := by
  have hrows : SDG.groupRows df c g = [o] := by
    unfold SDG.groupRows
    rw [h]
    rfl
  rw [hrows]
  rcases ho : o.avg_indicator_value with _ | v <;>
    rcases hc : o.yoy_change with _ | ch <;>
      simp [SDG.aggGroup, SDG.filledStd, SDG.filledChange, SDG.sampleStd,
        SDG.meanQ, ho, hc]

/-- C4 witness: the amended theorem applied to a concrete batch whose only
observation for the key has a null `yoy_change`: filled std and filled mean
change are both 0. -/
theorem c4_singleton_group_witness :
    [SDG.c4wObs].filter (fun x => decide (SDG.obsKey x = some ("BBB", "G2")))
      = [SDG.c4wObs]
    ∧ SDG.filledStd (SDG.aggGroup (SDG.groupRows [SDG.c4wObs] "BBB" "G2")
        "BBB" "G2") = 0
    ∧ SDG.filledChange (SDG.aggGroup (SDG.groupRows [SDG.c4wObs] "BBB" "G2")
        "BBB" "G2") = (none : Option ℚ).getD 0 :=
  ⟨by simp [SDG.obsKey, SDG.baseObs, SDG.c4wObs],
   (c4_singleton_group_amended [SDG.c4wObs] "BBB" "G2" SDG.c4wObs
      (by simp [SDG.obsKey, SDG.baseObs, SDG.c4wObs])).1,
   by
    have h2 := (c4_singleton_group_amended [SDG.c4wObs] "BBB" "G2" SDG.c4wObs
      (by simp [SDG.obsKey, SDG.baseObs, SDG.c4wObs])).2
    simpa [SDG.c4wObs, SDG.baseObs] using h2⟩

/-- Helper: an observation with a null country or goal code has no groupby
key. -/
theorem obsKey_eq_none_of_bad (o : SDG.Observation)
    (h : (o.country_code.isSome && o.goal_code.isSome) = false) :
    SDG.obsKey o = none := by
  unfold SDG.obsKey
  rcases hc : o.country_code with _ | c <;>
    rcases hg : o.goal_code with _ | g <;>
      simp_all

/-- Helper: an observation with a groupby key has non-null country and goal
codes. -/
theorem good_of_obsKey_some {o : SDG.Observation} {c g : String}
    (h : SDG.obsKey o = some (c, g)) :
    (o.country_code.isSome && o.goal_code.isSome) = true := by
  unfold SDG.obsKey at h
  rcases hc : o.country_code with _ | c' <;>
    rcases hg : o.goal_code with _ | g' <;>
      rw [hc, hg] at h <;> simp_all

/-- Helper: removing the rows with a null key component does not change the
set of present keys. -/
theorem presentKeys_filter_good (df : List SDG.Observation) :
    SDG.presentKeys (df.filter
      (fun o => o.country_code.isSome && o.goal_code.isSome))
      = SDG.presentKeys df := by
  unfold SDG.presentKeys
  congr 1
  induction df with
  | nil => rfl
  | cons o t ih =>
    rw [List.filter_cons]
    by_cases hgood : (o.country_code.isSome && o.goal_code.isSome) = true
    · rw [if_pos hgood, List.filterMap_cons, List.filterMap_cons]
      cases SDG.obsKey o <;> simp [ih]
    · have hbad : (o.country_code.isSome && o.goal_code.isSome) = false := by
        simpa using hgood
      rw [if_neg (by simp [hbad]), List.filterMap_cons,
        obsKey_eq_none_of_bad o hbad, ih]

/-- Helper: removing the rows with a null key component does not change any
group's rows. -/
theorem groupRows_filter_good (df : List SDG.Observation) (c g : String) :
    SDG.groupRows (df.filter
      (fun o => o.country_code.isSome && o.goal_code.isSome)) c g
      = SDG.groupRows df c g := by
  unfold SDG.groupRows
  congr 1
  rw [List.filter_filter]
  apply List.filter_congr
  intro o _
  by_cases h : SDG.obsKey o = some (c, g)
  · simp [h, good_of_obsKey_some h]
  · simp [h]

/-- C6, counterexample: a batch whose only observation has a null
country_code is aggregated to `.ok []` — the row is silently dropped by the
grouping, no `DataIntegrityError` is raised; and a batch whose only
observation has a null value yields a record whose `value_mean` is null
rather than an error. -/
theorem c6_null_key_counterexample :
    SDG.aggregateE [{ SDG.baseObs with
      goal_code := some "G1"
      avg_indicator_value := some 5 }] = .ok []
    ∧ (SDG.progress_features [{ SDG.baseObs with
        country_code := some "AAA"
        goal_code := some "G1" }]).map (fun r => r.value_mean) = [none] :=
  ⟨rfl, rfl⟩

/-- C6, amended: the Aggregator never fails — no `DataIntegrityError`
exists in the code.  An Observation with a null entity or group id is
silently dropped (the aggregate of any batch equals the aggregate of the
batch with those rows removed), and null values are skipped inside the
group statistics rather than propagated or rejected. -/
theorem c6_nulls_silently_dropped (df : List SDG.Observation) :
    SDG.aggregateE df = .ok (SDG.progress_features df)
    ∧ SDG.progress_features df
        = SDG.progress_features (df.filter
            (fun o => o.country_code.isSome && o.goal_code.isSome)) := by
  refine ⟨rfl, ?_⟩
  unfold SDG.progress_features
  rw [presentKeys_filter_good]
  apply List.map_congr_left
  intro k _
  rw [groupRows_filter_good]

/-- C7, counterexample: a training split with a single label class is
fitted without any error — `train_model` returns normally, it does not
fail with a `TrainingError` as claimed. -/
theorem c7_single_class_no_error_counterexample :
    SDG.train_model [0, 0, 0, 0, 0] = .ok [0]
    ∧ ([0, 0, 0, 0, 0] : List ℕ).dedup = [0] := by
  constructor <;> rfl

/-- C7, amended: `train_model` performs no check on the number of distinct
label classes and never raises: for every label vector, including
degenerate single-class ones, it returns normally and no `TrainingError`
is surfaced. -/
theorem c7_trainer_never_fails (y : List ℕ) :
    (∀ e : SDG.TrainingError, SDG.train_model y ≠ .error e)
    ∧ SDG.train_model y = .ok y.dedup :=
  ⟨fun e h => by simp [SDG.train_model] at h, rfl⟩

/-- C8: the Categorical Encoder is deterministic and order-independent —
two columns holding the same set of distinct values after null cells are
replaced by "Unknown" (in any row order, with any multiplicities) receive
the identical sorted class list, hence the identical value-to-code
mapping. -/
theorem c8_encoder_order_independent (col1 col2 : List (Option String))
    (h : List.Perm (col1.map SDG.fillUnknown).dedup
      (col2.map SDG.fillUnknown).dedup) :
    SDG.encoderClasses (col1.map SDG.fillUnknown)
      = SDG.encoderClasses (col2.map SDG.fillUnknown)
    ∧ ∀ v : String, SDG.encoderCode (col1.map SDG.fillUnknown) v
        = SDG.encoderCode (col2.map SDG.fillUnknown) v := by
  have hcls : SDG.encoderClasses (col1.map SDG.fillUnknown)
      = SDG.encoderClasses (col2.map SDG.fillUnknown) := by
    unfold SDG.encoderClasses
    refine List.eq_of_perm_of_sorted ?_ (List.sorted_insertionSort _ _)
      (List.sorted_insertionSort _ _)
    exact ((List.perm_insertionSort _ _).trans h).trans
      (List.perm_insertionSort _ _).symm
  exact ⟨hcls, fun v => by unfold SDG.encoderCode; rw [hcls]⟩

/-- C8 witness: the encoder theorem applied to two concrete region columns
holding the value set Europe/Unknown in different orders and
multiplicities. -/
theorem c8_encoder_witness :
    List.Perm
      ((([some "Europe", none] : List (Option String)).map
        SDG.fillUnknown).dedup)
      ((([none, some "Europe", some "Europe"] : List (Option String)).map
        SDG.fillUnknown).dedup)
    ∧ SDG.encoderClasses
        (([some "Europe", none] : List (Option String)).map SDG.fillUnknown)
      = SDG.encoderClasses
        (([none, some "Europe", some "Europe"] : List (Option String)).map
          SDG.fillUnknown) :=
  ⟨by decide, (c8_encoder_order_independent [some "Europe", none]
      [none, some "Europe", some "Europe"] (by decide)).1⟩

/-- Helper: a key is present exactly when some observation carries it. -/
theorem mem_presentKeys_iff {df : List SDG.Observation} {c g : String} :
    (c, g) ∈ SDG.presentKeys df ↔ ∃ o ∈ df, SDG.obsKey o = some (c, g) := by
  unfold SDG.presentKeys
  rw [List.mem_dedup, List.mem_filterMap]

/-- Helper: the aggregate of a group keeps the group's country code. -/
theorem aggGroup_country_code (rows : List SDG.Observation) (c g : String) :
    (SDG.aggGroup rows c g).country_code = c := rfl

/-- Helper: the aggregate of a group keeps the group's goal code. -/
theorem aggGroup_goal_code (rows : List SDG.Observation) (c g : String) :
    (SDG.aggGroup rows c g).goal_code = g := rfl

/-- Helper: `data_points` of a group's aggregate is the number of its
rows. -/
theorem aggGroup_data_points (rows : List SDG.Observation) (c g : String) :
    (SDG.aggGroup rows c g).data_points = rows.length := rfl

/-- Helper: the number of rows of a group equals the number of matching
observations in the batch. -/
theorem groupRows_length (df : List SDG.Observation) (c g : String) :
    (SDG.groupRows df c g).length
      = (df.filter (fun o => decide (SDG.obsKey o = some (c, g)))).length :=
  (List.perm_insertionSort _ _).length_eq

/-- Helper: on a duplicate-free list, exactly one entry equals a given
member. -/
theorem countP_eq_one_of_nodup_mem {α : Type} [DecidableEq α] {l : List α}
    {a : α} (hnd : l.Nodup) (ha : a ∈ l) :
    List.countP (fun x => decide (x = a)) l = 1 := by
  induction l with
  | nil => cases ha
  | cons b t ih =>
    rw [List.countP_cons]
    rcases List.mem_cons.mp ha with rfl | hat
    · have hnt : a ∉ t := (List.nodup_cons.mp hnd).1
      have hz : List.countP (fun x => decide (x = a)) t = 0 := by
        rw [List.countP_eq_zero]
        intro x hx
        simp only [decide_eq_true_eq]
        intro hxa
        exact hnt (hxa ▸ hx)
      simp [hz]
    · have hb : b ≠ a := by
        rintro rfl
        exact (List.nodup_cons.mp hnd).1 hat
      rw [ih (List.nodup_cons.mp hnd).2 hat]
      simp [hb]

/-- C9: for every (country, goal) key carried by at least one observation,
the Aggregator emits exactly one FeatureRecord with that key, and its
`data_points` (the spec's `observation_count`) equals the exact number of
observations in the batch carrying that key. -/
theorem c9_one_record_per_key (df : List SDG.Observation) (c g : String)
    (h : ∃ o ∈ df, SDG.obsKey o = some (c, g)) :
    ((SDG.progress_features df).filter
        (fun r => decide (r.country_code = c ∧ r.goal_code = g))).length = 1
    ∧ ∀ r ∈ SDG.progress_features df, r.country_code = c → r.goal_code = g →
        r.data_points
          = (df.filter (fun o => decide (SDG.obsKey o = some (c, g)))).length := by
  constructor
  · unfold SDG.progress_features
    rw [List.filter_map]
    have hpred : ∀ k ∈ SDG.presentKeys df,
        ((fun r => decide (r.country_code = c ∧ r.goal_code = g)) ∘
          (fun k : String × String =>
            SDG.aggGroup (SDG.groupRows df k.1 k.2) k.1 k.2)) k
        = decide (k = (c, g)) := by
      intro k _
      simp [Function.comp, aggGroup_country_code, aggGroup_goal_code,
        Prod.ext_iff]
    rw [List.filter_congr hpred, List.length_map, ← List.countP_eq_length_filter]
    have hnd : (SDG.presentKeys df).Nodup := by
      unfold SDG.presentKeys
      exact List.nodup_dedup _
    exact countP_eq_one_of_nodup_mem hnd (mem_presentKeys_iff.mpr h)
  · intro r hr hc hg
    unfold SDG.progress_features at hr
    rcases List.mem_map.mp hr with ⟨k, hk, rfl⟩
    have hk1 : k.1 = c := hc
    have hk2 : k.2 = g := hg
    rw [aggGroup_data_points, hk1, hk2, groupRows_length]

/-- C9 witness: the theorem applied to a concrete two-observation batch
for the key ("CCC", "G3"): exactly one record, with 2 data points. -/
theorem c9_one_record_per_key_witness :
    (∃ o ∈ [{ SDG.baseObs with
        country_code := some "CCC"
        goal_code := some "G3" },
      { SDG.baseObs with
        country_code := some "CCC"
        goal_code := some "G3"
        year := 2001 }], SDG.obsKey o = some ("CCC", "G3"))
    ∧ ((SDG.progress_features [{ SDG.baseObs with
        country_code := some "CCC"
        goal_code := some "G3" },
      { SDG.baseObs with
        country_code := some "CCC"
        goal_code := some "G3"
        year := 2001 }]).filter
        (fun r => decide (r.country_code = "CCC" ∧ r.goal_code = "G3"))).length = 1 :=
  ⟨⟨{ SDG.baseObs with
      country_code := some "CCC"
      goal_code := some "G3" }, by simp, by simp [SDG.obsKey, SDG.baseObs]⟩,
   (c9_one_record_per_key _ "CCC" "G3"
      ⟨{ SDG.baseObs with
          country_code := some "CCC"
          goal_code := some "G3" }, by simp, by simp [SDG.obsKey, SDG.baseObs]⟩).1⟩

/-- Helper: in a year-sorted row list, every row's year is at most the last
row's year. -/
theorem year_le_getLast_of_sorted {rows : List SDG.Observation}
    (hsort : List.Sorted (fun a b : SDG.Observation => a.year ≤ b.year) rows)
    {y : SDG.Observation} (hy : y ∈ rows) (hne : rows ≠ []) :
    y.year ≤ (rows.getLast hne).year := by
  rcases List.mem_iff_getElem.mp hy with ⟨i, hi, rfl⟩
  rw [List.getLast_eq_getElem]
  have hlast : rows.length - 1 < rows.length := by
    cases rows
    · exact absurd rfl hne
    · simp
  have := hsort.rel_get_of_le (a := ⟨i, hi⟩) (b := ⟨rows.length - 1, hlast⟩)
    (Fin.mk_le_mk.mpr (by omega))
  simpa using this

/-- Helper: when one matching observation strictly dominates every other
matching observation by year, it is the last row of the country's
year-sorted rows. -/
theorem entityRows_getLast_eq (df : List SDG.Observation) (c : String)
    (o : SDG.Observation) (ho : o ∈ df) (hoc : o.country_code = some c)
    (hmax : ∀ o' ∈ df, o'.country_code = some c → o' ≠ o → o'.year < o.year) :
    ∃ hne : SDG.entityRows df c ≠ [], (SDG.entityRows df c).getLast hne = o := by
  have hperm : List.Perm (SDG.entityRows df c)
      (df.filter (fun x => decide (x.country_code = some c))) := by
    unfold SDG.entityRows
    exact List.perm_insertionSort _ _
  have hsortE : List.Sorted (fun a b : SDG.Observation => a.year ≤ b.year)
      (SDG.entityRows df c) := by
    unfold SDG.entityRows
    exact List.sorted_insertionSort _ _
  have homem : o ∈ SDG.entityRows df c := by
    rw [hperm.mem_iff]
    exact List.mem_filter.mpr ⟨ho, by simp [hoc]⟩
  have hne : SDG.entityRows df c ≠ [] := by
    intro hE
    rw [hE] at homem
    cases homem
  refine ⟨hne, ?_⟩
  by_contra hzo
  have hzmem : (SDG.entityRows df c).getLast hne ∈ SDG.entityRows df c :=
    List.getLast_mem hne
  have hzfil := List.mem_filter.mp (hperm.mem_iff.mp hzmem)
  have hzc : ((SDG.entityRows df c).getLast hne).country_code = some c := by
    simpa using hzfil.2
  have hlt : ((SDG.entityRows df c).getLast hne).year < o.year :=
    hmax _ hzfil.1 hzc hzo
  have hle : o.year ≤ ((SDG.entityRows df c).getLast hne).year :=
    year_le_getLast_of_sorted hsortE homem hne
  omega

/-- Helper: the last non-null entry of a column whose final row holds a
non-null value is that value. -/
theorem lastSome_of_split {α : Type} (rows pre : List SDG.Observation)
    (o : SDG.Observation) (hsplit : rows = pre ++ [o])
    (f : SDG.Observation → Option α) (hf : (f o).isSome = true) :
    SDG.lastSome (rows.map f) = f o := by
  rcases Option.isSome_iff_exists.mp hf with ⟨v, hv⟩
  have hmap : List.map f [o] = [some v] := by simp [hv]
  unfold SDG.lastSome
  rw [hsplit, List.map_append, hmap, List.filterMap_append]
  have hsing : List.filterMap id [some v] = [v] := rfl
  rw [hsing, List.getLast?_concat]
  exact hv.symm

/-- C5, counterexample: the joiner does not take all attributes from the
single latest observation.  With the 2001 observation's `region` and
`gdp_per_capita` null, `groupby.last()` falls back per column to the 2000
observation's non-null values instead of reporting the 2001 row's nulls. -/
theorem c5_per_column_counterexample :
    (SDG.latest_attrs [SDG.c5Obs1, SDG.c5Obs2] "DDD").region = some "Africa"
    ∧ (SDG.latest_attrs [SDG.c5Obs1, SDG.c5Obs2] "DDD").gdp_per_capita = some 100
    ∧ SDG.c5Obs2.region = none
    ∧ SDG.c5Obs2.gdp_per_capita = none
    ∧ SDG.c5Obs1.year < SDG.c5Obs2.year :=
  ⟨rfl, rfl, rfl, rfl, by decide⟩

/-- C5, amended: for each country, `latest_attrs` takes each contextual
attribute independently as the last non-null value in year order (falling
back to earlier observations when the latest is null); in particular when
the strictly latest observation of the country has every contextual
attribute non-null, all attributes do come from that one observation, and
the merge attaches this one row to every FeatureRecord of the country. -/
theorem c5_latest_attrs_amended (df : List SDG.Observation) (c : String)
    (o : SDG.Observation) (ho : o ∈ df) (hoc : o.country_code = some c)
    (hmax : ∀ o' ∈ df, o'.country_code = some c → o' ≠ o → o'.year < o.year)
    (h1 : o.country_name.isSome = true) (h2 : o.region.isSome = true)
    (h3 : o.income_level.isSome = true) (h4 : o.gdp_per_capita.isSome = true)
    (h5 : o.population.isSome = true) (h6 : o.life_expectancy.isSome = true)
    (h7 : o.adult_literacy_rate.isSome = true) :
    SDG.latest_attrs df c =
      { country_name := o.country_name
        region := o.region
        income_level := o.income_level
        gdp_per_capita := o.gdp_per_capita
        population := o.population
        life_expectancy := o.life_expectancy
        adult_literacy_rate := o.adult_literacy_rate }
    ∧ ∀ p ∈ SDG.mergedFeatures df, p.2 = SDG.latest_attrs df p.1.country_code := by
  constructor
  · rcases entityRows_getLast_eq df c o ho hoc hmax with ⟨hne, hlast⟩
    have hsplit : SDG.entityRows df c = (SDG.entityRows df c).dropLast ++ [o] := by
      conv_lhs => rw [← List.dropLast_concat_getLast hne]
      rw [hlast]
    simp only [SDG.latest_attrs]
    rw [lastSome_of_split _ _ o hsplit (fun x => x.country_name) h1,
      lastSome_of_split _ _ o hsplit (fun x => x.region) h2,
      lastSome_of_split _ _ o hsplit (fun x => x.income_level) h3,
      lastSome_of_split _ _ o hsplit (fun x => x.gdp_per_capita) h4,
      lastSome_of_split _ _ o hsplit (fun x => x.population) h5,
      lastSome_of_split _ _ o hsplit (fun x => x.life_expectancy) h6,
      lastSome_of_split _ _ o hsplit (fun x => x.adult_literacy_rate) h7]
  · intro p hp
    unfold SDG.mergedFeatures at hp
    rcases List.mem_map.mp hp with ⟨r, _, rfl⟩
    rfl

/-- C5 witness: the amended theorem applied to a concrete country whose
2001 observation strictly dominates by year and carries every contextual
attribute: the joined row is exactly that observation's attributes. -/
theorem c5_latest_attrs_witness :
    SDG.c5wObs2 ∈ [SDG.c5wObs1, SDG.c5wObs2]
    ∧ SDG.c5wObs2.country_code = some "EEE"
    ∧ (∀ o' ∈ [SDG.c5wObs1, SDG.c5wObs2], o'.country_code = some "EEE" →
        o' ≠ SDG.c5wObs2 → o'.year < SDG.c5wObs2.year)
    ∧ SDG.latest_attrs [SDG.c5wObs1, SDG.c5wObs2] "EEE" =
      { country_name := SDG.c5wObs2.country_name
        region := SDG.c5wObs2.region
        income_level := SDG.c5wObs2.income_level
        gdp_per_capita := SDG.c5wObs2.gdp_per_capita
        population := SDG.c5wObs2.population
        life_expectancy := SDG.c5wObs2.life_expectancy
        adult_literacy_rate := SDG.c5wObs2.adult_literacy_rate } :=
  ⟨by simp, rfl, by decide,
   (c5_latest_attrs_amended [SDG.c5wObs1, SDG.c5wObs2] "EEE" SDG.c5wObs2
      (by simp) rfl (by decide) rfl rfl rfl rfl rfl rfl rfl).1⟩
